import Mathlib

/-!
Shallow embedding of the laser-vehicle combat training environment:
the episode controller `AdvancedLaserVehicleEnv` (advanced_train.py),
the differential-drive vehicle `LaserVehicle` (laser_vehicle.py),
the arena mine model `CombatArena` (combat_arena.py) and the
six-stage `CurriculumManager` (curriculum_learning.py).

Python floats are modelled by exact rationals; the transcendental
library routines the source calls (`np.sqrt`, `np.cos`, `math.sin`,
`np.exp`, `np.arctan2`), the PyBullet physics/ray-cast queries, and
the NumPy random generator are abstracted into an `Oracle` record of
total functions, so every definition stays executable and the control
flow of the source is reproduced exactly over any oracle.
-/

namespace LaserSim

/-- `np.clip(x, lo, hi)`. -/
def clip (x lo hi : ℚ) : ℚ := min (max x lo) hi

/-- Python `int(q)`: truncation toward zero. -/
def pyInt (q : ℚ) : ℤ := if 0 ≤ q then ⌊q⌋ else ⌈q⌉

/-- Closed form of the source loop `while a > pi: a -= 2*pi`
(exact number of iterations for `pi > 0`). -/
def whileGtPi (pi a : ℚ) : ℚ := a - 2 * pi * (max 0 ⌈(a - pi) / (2 * pi)⌉ : ℤ)

/-- Closed form of the source loop `while a < -pi: a += 2*pi`. -/
def whileLtNegPi (pi a : ℚ) : ℚ := a + 2 * pi * (max 0 ⌈(-pi - a) / (2 * pi)⌉ : ℤ)

/-- The two sequential normalisation loops used throughout the source
to bring a relative angle into `(-pi, pi]`. -/
def normalizeAngle (pi a : ℚ) : ℚ := whileLtNegPi pi (whileGtPi pi a)

/-- A 3-component vector (position, Euler orientation, velocity, ...). -/
structure Vec3 where
  x : ℚ
  y : ℚ
  z : ℚ
deriving DecidableEq, Repr

/-- The pose/velocity/contact state of one rigid-body vehicle as the
physics engine reports it (`get_position_and_orientation`,
`get_velocity`, `get_angular_velocity`, `check_collision`). -/
structure VehicleState where
  pos : Vec3
  orient : Vec3
  vel : Vec3
  angvel : Vec3
  collision : Bool
deriving DecidableEq, Repr

/-- The external collaborators of the episode controller: float library
functions, the PyBullet physics/ray-cast engine and NumPy's seeded RNG.
`laserScan` models `LaserVehicle.get_laser_distances` (it may fail, as
any PyBullet query may when the connection drops); `physics` models
`apply_action` followed by one `step_simulation` tick;
`rayHitsOpponent` models the forward ray-cast of `_check_laser_hit`
hitting the opponent body first.  `rand g`/`uniform lo hi g` return the
drawn value together with the successor RNG state, so a reseeded
generator replays the same sequence. -/
structure Oracle where
  sqrt : ℚ → ℚ
  cos : ℚ → ℚ
  sin : ℚ → ℚ
  exp : ℚ → ℚ
  atan2 : ℚ → ℚ → ℚ
  pi : ℚ
  laserScan : VehicleState → Except String (List ℚ)
  physics : VehicleState → ℚ × ℚ → VehicleState
  rayHitsOpponent : VehicleState → Bool
  rand : ℕ → ℚ × ℕ
  uniform : ℚ → ℚ → ℕ → ℚ × ℕ

/-- `CombatArena.arena_half_size` (`arena_size = 4.0` metres). -/
def arenaHalfSize : ℚ := 2

/-- The arena's canonical three-mine lattice, re-created by
`CombatArena.reset` (z-components are irrelevant to all users). -/
def defaultArenaMines : List (ℚ × ℚ) := [(-1, 0), (0, 0), (1, 0)]

/-- The mutable state of one `AdvancedLaserVehicleEnv` instance
(together with the arena state it owns).  `vehicle = none` models
`arena.vehicle is None`; `obsHistory = none` models the
`_observation_history` attribute not having been created yet, and
`visited = none` the `visited_positions` attribute likewise. -/
structure EnvState where
  steps : ℕ
  maxSteps : ℕ
  difficulty : ℚ
  terminated : Bool
  truncated : Bool
  laser_hit : Bool
  continuous_hit_start : Option ℚ
  boundary_crossed : Bool
  vehicle : Option VehicleState
  opponent_position : Option Vec3
  arenaMinePositions : List (ℚ × ℚ)
  arenaMineObjects : ℕ
  envMinePositions : List (ℚ × ℚ)
  obsHistory : Option (List (List ℚ))
  previous_action : Option (ℚ × ℚ)
  visited : Option (List (ℤ × ℤ))
  episode_reward : ℚ
  rng : ℕ
deriving DecidableEq, Repr

/-- The freshly constructed environment (`__init__`): all latches false,
no vehicle spawned yet, the arena holding its canonical three mines. -/
def initState (difficulty : ℚ) (rng : ℕ) : EnvState where
  steps := 0
  maxSteps := 1000
  difficulty := clip difficulty 0.1 1.0
  terminated := false
  truncated := false
  laser_hit := false
  continuous_hit_start := none
  boundary_crossed := false
  vehicle := none
  opponent_position := none
  arenaMinePositions := defaultArenaMines
  arenaMineObjects := 3
  envMinePositions := []
  obsHistory := none
  previous_action := none
  visited := none
  episode_reward := 0
  rng := rng

/-- The named reward breakdown `_compute_reward` builds (§ the
`reward_components` dict), as a fixed-schema record. -/
structure RewardComponents where
  survival_reward : ℚ
  distance_reward : ℚ
  rotation_reward : ℚ
  waypoint_reward : ℚ
  laser_reward : ℚ
  goal_reward : ℚ
  mine_penalty : ℚ
  collision_reward : ℚ
  out_of_bounds : ℚ
  smooth_reward : ℚ
  exploration_reward : ℚ
  energy_conservation : ℚ
  time_penalty : ℚ
  total_reward : ℚ
deriving DecidableEq, Repr

/-- The all-zero breakdown returned on the failure paths of
`_compute_reward` (the source there builds a zero map over the seven
`reward_metrics_keys` only; every key it does carry is 0.0). -/
def zeroComponents : RewardComponents where
  survival_reward := 0
  distance_reward := 0
  rotation_reward := 0
  waypoint_reward := 0
  laser_reward := 0
  goal_reward := 0
  mine_penalty := 0
  collision_reward := 0
  out_of_bounds := 0
  smooth_reward := 0
  exploration_reward := 0
  energy_conservation := 0
  time_penalty := 0
  total_reward := 0

/-- `sum(reward_components.values())` at the moment the source sums the
dict (the `total_reward` slot still holds 0.0 there, so it is included
but contributes nothing to the model either when we sum before setting
it). -/
def RewardComponents.sumAll (rc : RewardComponents) : ℚ :=
  rc.survival_reward + rc.distance_reward + rc.rotation_reward + rc.waypoint_reward +
  rc.laser_reward + rc.goal_reward + rc.mine_penalty + rc.collision_reward +
  rc.out_of_bounds + rc.smooth_reward + rc.exploration_reward + rc.energy_conservation +
  rc.time_penalty + rc.total_reward

/-- The dynamically typed second argument of `_compute_reward`.  The
source guards with `isinstance(info, dict)`; `step` passes the plain
boolean returned by `_check_laser_hit`. -/
inductive RewardInfo where
  | ofBool (b : Bool)
  | ofDict (laser_hit : Bool)
deriving DecidableEq, Repr

/-- `info.get('laser_hit', False)` behind the `isinstance(info, dict)`
check: a non-dict argument always yields `False`. -/
def RewardInfo.laserHit : RewardInfo → Bool
  | .ofDict b => b
  | .ofBool _ => false

/-- The mine loop of `_compute_reward`: contact (`< 0.075 + 0.15`)
overwrites the accumulator with -15.0 and breaks; a near miss
(`< 0.075 + 0.3`) folds in a ramped warning penalty through `min`;
a pass at a comfortable distance (strictly between 0.3 and 0.7)
adds a small avoidance bonus. -/
def minePenaltyLoop (o : Oracle) (px py : ℚ) : List (ℚ × ℚ) → ℚ → ℚ
  | [], acc => acc
  | (mx, my) :: rest, acc =>
    let dx := px - mx
    let dy := py - my
    let distance_to_mine := o.sqrt (dx * dx + dy * dy)
    if distance_to_mine < 0.075 + 0.15 then
      -15
    else if distance_to_mine < 0.075 + 0.3 then
      minePenaltyLoop o px py rest
        (min acc (-2 * (1 - (distance_to_mine - 0.075) / 0.3)))
    else if distance_to_mine < 0.7 ∧ distance_to_mine > 0.3 then
      minePenaltyLoop o px py rest (acc + 0.2 * ((distance_to_mine - 0.3) / 0.4))
    else
      minePenaltyLoop o px py rest acc

/-- `np.min` over a laser scan, with the source's sentinel 999 standing
in when the scan is empty (the source skips the `np.min` call then). -/
def npMin : List ℚ → ℚ
  | [] => 999
  | h :: t => t.foldl min h

/-- The body of `_compute_reward` (advanced_train.py lines 824-1019)
inside its `try`.  The only fallible call is the laser scan; every
other collaborator call is total.  Returns the scalar total, the
component breakdown and the state as mutated by the method
(`visited_positions`, `previous_action`). -/
def computeRewardE (o : Oracle) (s : EnvState) (now : ℚ) (action : ℚ × ℚ)
    (info : RewardInfo) : Except String (ℚ × RewardComponents × EnvState) :=
  match s.vehicle with
  | none => .ok (0, zeroComponents, s)
  | some veh =>
    match o.laserScan veh with
    | .error e => .error e
    | .ok laser_distances =>
    let position := veh.pos
    let orientation := veh.orient
    let velocity := veh.vel
    let speed := o.sqrt (velocity.x * velocity.x + velocity.y * velocity.y +
      velocity.z * velocity.z)
    let laser_hit := info.laserHit
    let out_of_bounds : ℚ :=
      if |position.x| > arenaHalfSize ∨ |position.y| > arenaHalfSize then -5 else 0
    let mine_penalty : ℚ :=
      if s.arenaMinePositions = [] then 0
      else minePenaltyLoop o position.x position.y s.arenaMinePositions 0
    let collision_reward : ℚ := if veh.collision then -5 else 0
    let (distance_reward, rotation_reward, goal_reward0) :=
      match s.opponent_position with
      | none => ((0 : ℚ), (0 : ℚ), (0 : ℚ))
      | some opp =>
        let dx := opp.x - position.x
        let dy := opp.y - position.y
        let distance := o.sqrt (dx * dx + dy * dy)
        let angle := o.atan2 dy dx
        let relative_angle := normalizeAngle o.pi (angle - orientation.z)
        let distance_reward : ℚ :=
          if s.boundary_crossed then
            let ideal_distance : ℚ := 1
            let proximity_factor :=
              if distance < ideal_distance then
                1 - (ideal_distance - distance) / ideal_distance
              else
                1 - min 1 ((distance - ideal_distance) / 2)
            0.8 * proximity_factor
          else 0
        let rotation_reward : ℚ :=
          if s.boundary_crossed then
            let alignment := o.cos relative_angle
            0.5 * max 0 alignment
          else 0
        let start_pos : ℚ × ℚ := (-arenaHalfSize + 0.5, -arenaHalfSize + 0.5)
        let dx_start := position.x - start_pos.1
        let dy_start := position.y - start_pos.2
        let distance_to_start := o.sqrt (dx_start * dx_start + dy_start * dy_start)
        let goal_reward0 : ℚ :=
          if distance_to_start < 0.5 ∧ s.steps > 100 then 0 + 3 else 0
        (distance_reward, rotation_reward, goal_reward0)
    let waypoint_reward : ℚ := if s.boundary_crossed then 0.3 else 0
    let (laser_reward0, goal_reward) :=
      if laser_hit then
        match s.continuous_hit_start with
        | some t0 =>
          let hit_duration := now - t0
          let lr : ℚ := 2 + min 5 (hit_duration * 2)
          if hit_duration ≥ 2 then (lr, (50 : ℚ)) else (lr, goal_reward0)
        | none => ((2 : ℚ), goal_reward0)
      else ((0 : ℚ), goal_reward0)
    let min_laser := npMin laser_distances
    let laser_reward : ℚ :=
      if min_laser < 0.3 then
        laser_reward0 + -0.5 * (0.3 - min_laser) / 0.3
      else if ¬ laser_distances = [] ∧ npMin laser_distances > 0.3 then
        laser_reward0 + 0.1
      else laser_reward0
    let ideal_speed : ℚ := 1.5
    let speed_diff := |speed - ideal_speed|
    let smooth_reward0 : ℚ :=
      if speed_diff < 0.5 then 0.2 * (1 - speed_diff / 0.5)
      else -(0.1 * min 1 ((speed_diff - 0.5) / 1))
    let smooth_reward : ℚ :=
      match s.previous_action with
      | some prev =>
        let action_diff := |action.1 - prev.1| + |action.2 - prev.2|
        smooth_reward0 + 0.2 * o.exp (-action_diff)
      | none => smooth_reward0
    let energy := action.1 * action.1 + action.2 * action.2
    let energy_conservation : ℚ := 0.1 * o.exp (-energy)
    let grid_x := pyInt ((position.x + arenaHalfSize) / 0.2)
    let grid_y := pyInt ((position.y + arenaHalfSize) / 0.2)
    let (exploration_reward, visited) :=
      match s.visited with
      | some vs =>
        if (grid_x, grid_y) ∈ vs then ((0 : ℚ), vs)
        else ((0.1 : ℚ), (grid_x, grid_y) :: vs)
      | none => ((0 : ℚ), [(grid_x, grid_y)])
    let rc : RewardComponents :=
      { survival_reward := 0.01
        distance_reward := distance_reward
        rotation_reward := rotation_reward
        waypoint_reward := waypoint_reward
        laser_reward := laser_reward
        goal_reward := goal_reward
        mine_penalty := mine_penalty
        collision_reward := collision_reward
        out_of_bounds := out_of_bounds
        smooth_reward := smooth_reward
        exploration_reward := exploration_reward
        energy_conservation := energy_conservation
        time_penalty := -0.005
        total_reward := 0 }
    let total_reward := rc.sumAll
    .ok (total_reward, { rc with total_reward := total_reward },
      { s with visited := some visited, previous_action := some action })

/-- `_compute_reward` with its `try/except`: any internal failure is
recovered locally as a zero total and a zero component map. -/
def computeReward (o : Oracle) (s : EnvState) (now : ℚ) (action : ℚ × ℚ)
    (info : RewardInfo) : ℚ × RewardComponents × EnvState :=
  match computeRewardE o s now action info with
  | .ok r => r
  | .error _ => (0, zeroComponents, s)

/-- `_is_terminated` for a present vehicle: collision, mine contact
(guarded by the arena's `mine_objects` list being non-empty, iterating
`mine_positions`), sustained laser hit of at least 2 seconds, or the
wide out-of-bounds check at 3.5. -/
def isTerminatedCore (o : Oracle) (s : EnvState) (veh : VehicleState) (now : ℚ) : Bool :=
  if veh.collision then true
  else
    let position := veh.pos
    if s.arenaMineObjects ≠ 0 ∧ s.arenaMinePositions.any (fun m =>
        let dx := position.x - m.1
        let dy := position.y - m.2
        o.sqrt (dx * dx + dy * dy) < 0.075 + 0.15) then true
    else if (match s.continuous_hit_start with
             | some t0 => decide (now - t0 ≥ 2)
             | none => false) then true
    else if |position.x| > 3.5 ∨ |position.y| > 3.5 then true
    else false

/-- `_is_terminated`; `none` models the attribute error the source
raises when `arena.vehicle` is `None`. -/
def isTerminated (o : Oracle) (s : EnvState) (now : ℚ) : Option Bool :=
  s.vehicle.map (fun veh => isTerminatedCore o s veh now)

/-- `_is_truncated`. -/
def isTruncated (s : EnvState) : Bool := s.steps ≥ s.maxSteps

/-- `_check_boundary_crossed`: a one-way latch set as soon as the
vehicle's y-coordinate is strictly positive. -/
def checkBoundaryCrossed (s : EnvState) (veh : VehicleState) : EnvState :=
  if veh.pos.y > 0 ∧ ¬ s.boundary_crossed then { s with boundary_crossed := true }
  else s

/-- `_check_laser_hit`: before the boundary is crossed the laser is
disabled and both hit latches are cleared; with no opponent registered
it returns false WITHOUT touching the latches; otherwise the forward
ray-cast decides, latching `continuous_hit_start` on the first hit and
clearing both latches on a miss. -/
def checkLaserHit (o : Oracle) (s : EnvState) (veh : VehicleState) (now : ℚ) :
    Bool × EnvState :=
  if ¬ s.boundary_crossed then
    (false, { s with laser_hit := false, continuous_hit_start := none })
  else
    match s.opponent_position with
    | none => (false, s)
    | some _ =>
      if o.rayHitsOpponent veh then
        if ¬ s.laser_hit then
          (true, { s with laser_hit := true, continuous_hit_start := some now })
        else (true, s)
      else
        (false, { s with laser_hit := false, continuous_hit_start := none })

/-- The 40-dimensional per-tick observation frame of
`_get_observation`: 16 laser distances, 3 position, 3 orientation,
3 velocity, 3 angular velocity, 4 opponent-relative, 2 boundary,
2 nearest-mine, 2 laser-state, 2 zero padding. -/
def nearestMineScan (o : Oracle) (px py yaw : ℚ) :
    List (ℚ × ℚ) → Option ℚ → ℚ → ℚ × ℚ
  | [], best, bestAngle => (best.getD 0, bestAngle)
  | (mx, my) :: rest, best, bestAngle =>
    let dx_mine := mx - px
    let dy_mine := my - py
    let dist_mine := o.sqrt (dx_mine * dx_mine + dy_mine * dy_mine)
    if (match best with | none => true | some b => dist_mine < b) then
      nearestMineScan o px py yaw rest (some dist_mine)
        (normalizeAngle o.pi (o.atan2 dy_mine dx_mine - yaw))
    else
      nearestMineScan o px py yaw rest best bestAngle

/-- One observation frame; fails exactly when the laser scan does. -/
def getFrameE (o : Oracle) (s : EnvState) (veh : VehicleState) (now : ℚ) :
    Except String (List ℚ) :=
  match o.laserScan veh with
  | .error e => .error e
  | .ok laser_distances =>
  let position := veh.pos
  let orientation := veh.orient
  let opponent_info : List ℚ :=
    match s.opponent_position with
    | some opp =>
      let dx := opp.x - position.x
      let dy := opp.y - position.y
      let distance := o.sqrt (dx * dx + dy * dy)
      let angle := o.atan2 dy dx
      let relative_angle := normalizeAngle o.pi (angle - orientation.z)
      [distance, relative_angle, o.cos relative_angle, o.sin relative_angle]
    | none => [0, 0, 0, 0]
  let boundary_info : List ℚ := [|position.y|, if s.boundary_crossed then 1 else 0]
  let mine_info : List ℚ :=
    if s.envMinePositions = [] then [0, 0]
    else
      let (d, a) := nearestMineScan o position.x position.y orientation.z
        s.envMinePositions none 0
      [d, a]
  let laser_info : List ℚ :=
    [if s.laser_hit then 1 else 0,
     match s.continuous_hit_start with
     | none => 0
     | some t0 => min (now - t0) 10]
  .ok (laser_distances ++
    [position.x, position.y, position.z] ++
    [orientation.x, orientation.y, orientation.z] ++
    [veh.vel.x, veh.vel.y, veh.vel.z] ++
    [veh.angvel.x, veh.angvel.y, veh.angvel.z] ++
    opponent_info ++ boundary_info ++ mine_info ++ laser_info ++ [0, 0])

/-- `deque(maxlen=4).append`: keep the most recent 4 frames. -/
def pushBounded (h : List (List ℚ)) (f : List ℚ) : List (List ℚ) :=
  let l := h ++ [f]
  l.drop (l.length - 4)

/-- The body of `_get_observation` inside its `try`: the explicit
missing-vehicle early return yields the 160-float zero vector; the
4-frame history is primed with the current frame when absent, then the
frame is appended and the history concatenated. -/
def getObservationE (o : Oracle) (s : EnvState) (now : ℚ) :
    Except String (List ℚ × EnvState) :=
  match s.vehicle with
  | none => .ok (List.replicate 160 0, s)
  | some veh =>
    match getFrameE o s veh now with
    | .error e => .error e
    | .ok current_observation =>
    let history :=
      match s.obsHistory with
      | none => List.replicate 4 current_observation
      | some h => h
    let history' := pushBounded history current_observation
    .ok (history'.flatten, { s with obsHistory := some history' })

/-- `_get_observation` with its `try/except`: any internal failure is
recovered locally by substituting the 160-float zero vector. -/
def getObservation (o : Oracle) (s : EnvState) (now : ℚ) : List ℚ × EnvState :=
  match getObservationE o s now with
  | .ok r => r
  | .error _ => (List.replicate 160 0, s)

/-- What `step` returns, with the info dict's reward breakdown kept
alongside the successor environment state. -/
structure StepResult where
  obs : List ℚ
  reward : ℚ
  terminated : Bool
  truncated : Bool
  components : RewardComponents
  state : EnvState
deriving DecidableEq, Repr

/-- `step(action)`: count the step, scale the action by 3.0 and apply
it through one physics tick, update the boundary latch, evaluate the
laser hit, assemble the observation, compute the reward (passing the
BOOLEAN hit flag as `info`), and evaluate termination/truncation.
`none` models the attribute error raised when no vehicle exists. -/
def stepFn (o : Oracle) (s : EnvState) (action : ℚ × ℚ) (now : ℚ) :
    Option StepResult :=
  match s.vehicle with
  | none => none
  | some veh =>
    let s1 := { s with steps := s.steps + 1 }
    let scaled_action := (action.1 * 3, action.2 * 3)
    let veh' := o.physics veh scaled_action
    let s2 := { s1 with vehicle := some veh' }
    let s3 := checkBoundaryCrossed s2 veh'
    let (hit, s4) := checkLaserHit o s3 veh' now
    let (observation, s5) := getObservation o s4 now
    let (reward, reward_components, s6) :=
      computeReward o s5 now action (RewardInfo.ofBool hit)
    let s7 := { s6 with episode_reward := s6.episode_reward + reward,
                        previous_action := some action }
    let terminated := isTerminatedCore o s7 veh' now
    let truncated := isTruncated s7
    some { obs := observation, reward := reward, terminated := terminated,
           truncated := truncated, components := reward_components, state := s7 }

/-- `_get_random_start_position`: one `np.random.rand()` draw chooses
the lower-left or upper-right start corner. -/
def getRandomStartPosition (o : Oracle) (g : ℕ) : Vec3 × ℕ :=
  let (r, g') := o.rand g
  (if r > 0.5 then
    ⟨-arenaHalfSize + 0.5, -arenaHalfSize + 0.5, 0.1⟩
  else
    ⟨arenaHalfSize - 0.5, arenaHalfSize - 0.5, 0.1⟩, g')

/-- The per-difficulty mine draws of `_reset_environment`
(`np.random.uniform(-2.0, 2.0)` for x then y, `mine_count` times). -/
def drawMines (o : Oracle) : ℕ → ℕ → List (ℚ × ℚ) × ℕ
  | 0, g => ([], g)
  | n + 1, g =>
    let (mine_x, g1) := o.uniform (-2) 2 g
    let (mine_y, g2) := o.uniform (-2) 2 g1
    let (rest, g3) := drawMines o n g2
    ((mine_x, mine_y) :: rest, g3)

/-- `reset(seed?)` followed by `_reset_environment`: reseed the RNG if a
seed is given, zero the step counter and the terminated/truncated
flags, rebuild the arena (restoring its canonical mines and destroying
the vehicles), spawn the primary vehicle at a random diagonal corner
with a random yaw, place the opponent at the mirrored corner (its yaw
is drawn too), draw `int(difficulty * 8)` mine positions, take the
initial observation, and finally clear `previous_action`.
The `boundary_crossed`, `laser_hit` and `continuous_hit_start` latches
are NOT touched by the source's reset. -/
def resetFn (o : Oracle) (s : EnvState) (seed : Option ℕ) (now : ℚ) :
    List ℚ × EnvState :=
  let s0 := match seed with
    | some sd => { s with rng := sd }
    | none => s
  let s1 := { s0 with steps := 0, terminated := false, truncated := false }
  let s2 := { s1 with arenaMinePositions := defaultArenaMines,
                      arenaMineObjects := 3, vehicle := none }
  let (start_pos, g1) := getRandomStartPosition o s2.rng
  let (start_yaw, g2) := o.uniform (-o.pi) o.pi g1
  let mainVeh : VehicleState :=
    { pos := start_pos, orient := ⟨0, 0, start_yaw⟩, vel := ⟨0, 0, 0⟩,
      angvel := ⟨0, 0, 0⟩, collision := false }
  let opponent_pos : Vec3 :=
    if start_pos.x < 0 then
      ⟨arenaHalfSize - 0.5, arenaHalfSize - 0.5, 0.1⟩
    else
      ⟨-arenaHalfSize + 0.5, -arenaHalfSize + 0.5, 0.1⟩
  let (_opponent_yaw, g3) := o.uniform (-o.pi) o.pi g2
  let mine_count := (pyInt (s2.difficulty * 8)).toNat
  let (mines, g4) := drawMines o mine_count g3
  let s3 := { s2 with vehicle := some mainVeh,
                      opponent_position := some opponent_pos,
                      envMinePositions := mines, rng := g4 }
  let (observation, s4) := getObservation o s3 now
  let s5 := { s4 with previous_action := none }
  (observation, s5)

/-- The fixed parameters of one `LaserVehicle` (laser_vehicle.py):
the source constructs it with `max_velocity = 2.0`,
`max_angular_velocity = math.pi * 1.5` and a `(length, width, height)`
size; the exact float of `pi * 1.5` is abstracted as a field. -/
structure VehicleParams where
  max_velocity : ℚ
  max_angular_velocity : ℚ
  size : ℚ × ℚ × ℚ
deriving DecidableEq, Repr

/-- The velocity command `apply_action` hands to
`p.resetBaseVelocity`: the world-frame linear velocity, the angular
velocity about the vertical axis, and the body linear velocity it was
derived from. -/
structure VelocityCommand where
  vx : ℚ
  vy : ℚ
  vz : ℚ
  wz : ℚ
  linear_vel : ℚ
deriving DecidableEq, Repr

/-- `LaserVehicle.apply_action` (laser_vehicle.py lines 201-237): clamp
each wheel command to [-1, 1], scale by `max_velocity`, derive the body
linear velocity as the wheel average and the angular velocity from the
wheel difference over the track width (`size[1] * 1.1`), clamp the
angular velocity, and rotate the linear velocity into the world frame
by the current yaw. -/
def applyAction (o : Oracle) (v : VehicleParams) (yaw : ℚ) (action : ℚ × ℚ) :
    VelocityCommand :=
  let left_wheel_vel := clip action.1 (-1) 1 * v.max_velocity
  let right_wheel_vel := clip action.2 (-1) 1 * v.max_velocity
  let linear_vel := (left_wheel_vel + right_wheel_vel) / 2
  let angular_vel0 := (right_wheel_vel - left_wheel_vel) / (v.size.2.1 * 1.1)
  let angular_vel := clip angular_vel0 (-v.max_angular_velocity) v.max_angular_velocity
  { vx := linear_vel * o.cos yaw
    vy := linear_vel * o.sin yaw
    vz := 0
    wz := angular_vel
    linear_vel := linear_vel }

/-- Default curriculum configuration (curriculum_learning.py):
`promotion_window`. -/
def promotionWindow : ℕ := 10

/-- Default `demotion_window`. -/
def demotionWindow : ℕ := 5

/-- Default `promotion_threshold`. -/
def promotionThreshold : ℚ := 0.75

/-- Default `demotion_threshold`. -/
def demotionThreshold : ℚ := 0.40

/-- Default `max_stage`. -/
def maxStage : ℕ := 6

/-- The `CurriculumManager` state the transition rule reads: the current
stage and the win-history FIFO (oldest first). -/
structure Curriculum where
  current_stage : ℕ
  win_history : List Bool
deriving DecidableEq, Repr

/-- `deque(maxlen=max(promotion_window, demotion_window)).append`. -/
def pushWin (h : List Bool) (w : Bool) : List Bool :=
  let l := h ++ [w]
  l.drop (l.length - max promotionWindow demotionWindow)

/-- Python `history[-n:]`: the most recent `n` entries. -/
def lastN (n : ℕ) (l : List Bool) : List Bool := l.drop (l.length - n)

/-- `sum(recent_wins) / len(recent_wins)` over a 0/1 outcome list. -/
def winRate (l : List Bool) : ℚ := (l.countP id : ℚ) / (l.length : ℚ)

/-- `CurriculumManager._promote`: below the maximum stage, advance one
stage and clear the history; at the maximum stage nothing changes (in
particular the history is NOT cleared — the source only prints). -/
def promote (c : Curriculum) : Curriculum :=
  if c.current_stage < maxStage then
    { current_stage := c.current_stage + 1, win_history := [] }
  else c

/-- `CurriculumManager._demote`: above stage 1, regress one stage and
clear the history; at stage 1 nothing changes. -/
def demote (c : Curriculum) : Curriculum :=
  if c.current_stage > 1 then
    { current_stage := c.current_stage - 1, win_history := [] }
  else c

/-- `_check_for_promotion_or_demotion`: no evaluation below the smaller
window; the promotion check runs first and returns when it fires; only
then is the demotion check evaluated. -/
def checkForPromotionOrDemotion (c : Curriculum) : Curriculum :=
  if c.win_history.length < min promotionWindow demotionWindow then c
  else if c.win_history.length ≥ promotionWindow ∧
      winRate (lastN promotionWindow c.win_history) ≥ promotionThreshold then
    promote c
  else if c.win_history.length ≥ demotionWindow ∧
      winRate (lastN demotionWindow c.win_history) ≤ demotionThreshold then
    demote c
  else c

/-- `record_outcome(win)`: append the outcome to the FIFO, then run the
promotion/demotion evaluation. -/
def recordOutcome (c : Curriculum) (win : Bool) : Curriculum :=
  checkForPromotionOrDemotion { c with win_history := pushWin c.win_history win }

/-- A concrete oracle instance used to evaluate the model on explicit
inputs: trivial float functions, an identity physics tick, an empty
laser scan, a miss-everything combat ray, and a deterministic RNG. -/
def testOracle : Oracle where
  sqrt := fun q => q
  cos := fun _ => 1
  sin := fun _ => 0
  exp := fun _ => 1
  atan2 := fun _ _ => 0
  pi := 3.14
  laserScan := fun _ => .ok []
  physics := fun v _ => v
  rayHitsOpponent := fun _ => false
  rand := fun g => (0.6, g + 1)
  uniform := fun _ _ g => (0, g + 1)

/-- `testOracle` with a combat ray that always finds the opponent
(a sustained-hit scenario). -/
def hitOracle : Oracle :=
  { testOracle with rayHitsOpponent := fun _ => true }

/-- A vehicle parked at `(1/2, 1/2)`, clear of every arena mine. -/
def midVeh : VehicleState where
  pos := ⟨1/2, 1/2, 0.1⟩
  orient := ⟨0, 0, 0⟩
  vel := ⟨0, 0, 0⟩
  angvel := ⟨0, 0, 0⟩
  collision := false

/-- A mid-episode state: boundary crossed, the laser latched onto the
opponent since time 0. -/
def hitState : EnvState :=
  { initState 0.1 5 with
    vehicle := some midVeh
    opponent_position := some ⟨3/2, 3/2, 0.1⟩
    boundary_crossed := true
    laser_hit := true
    continuous_hit_start := some 0 }

/-- A mid-episode state whose `boundary_crossed` latch is still down. -/
def ungatedState : EnvState :=
  { initState 0.1 5 with
    vehicle := some midVeh
    opponent_position := some ⟨3/2, 3/2, 0.1⟩ }

/-- A vehicle parked exactly on the central arena mine. -/
def mineVeh : VehicleState where
  pos := ⟨0, 0, 0.1⟩
  orient := ⟨0, 0, 0⟩
  vel := ⟨0, 0, 0⟩
  angvel := ⟨0, 0, 0⟩
  collision := false

/-- An episode state with the vehicle in mine contact. -/
def mineState : EnvState :=
  { initState 0.1 5 with vehicle := some mineVeh }

/-- The primary vehicle as spawned at the upper-right corner, before it
has moved at all. -/
def upperVeh : VehicleState where
  pos := ⟨3/2, 3/2, 0.1⟩
  orient := ⟨0, 0, 0⟩
  vel := ⟨0, 0, 0⟩
  angvel := ⟨0, 0, 0⟩
  collision := false

/-- The first-step state of an episode spawned in the upper half:
the latch is still down. -/
def upperStartState : EnvState :=
  { initState 0.1 5 with
    vehicle := some upperVeh
    opponent_position := some ⟨-3/2, -3/2, 0.1⟩ }

/-- `testOracle` with a random draw below 0.5, so the random spawn
selects the upper-right corner. -/
def lowRandOracle : Oracle :=
  { testOracle with rand := fun g => (0.3, g + 1) }

/-- An episode state that crossed the boundary before being reset. -/
def crossedState : EnvState :=
  { initState 0.1 5 with
    vehicle := some midVeh
    boundary_crossed := true }

/-- The curriculum sitting at the top stage with nine recorded wins. -/
def stage6Curriculum : Curriculum :=
  ⟨6, [true, true, true, true, true, true, true, true, true]⟩

/-- The start position the seeded reset draws. -/
def resetStartPos (o : Oracle) (S : ℕ) : Vec3 := (getRandomStartPosition o S).1

/-- The RNG state after the start-position draw. -/
def resetG1 (o : Oracle) (S : ℕ) : ℕ := (getRandomStartPosition o S).2

/-- The primary vehicle the seeded reset spawns. -/
def resetVehicle (o : Oracle) (S : ℕ) : VehicleState where
  pos := resetStartPos o S
  orient := ⟨0, 0, (o.uniform (-o.pi) o.pi (resetG1 o S)).1⟩
  vel := ⟨0, 0, 0⟩
  angvel := ⟨0, 0, 0⟩
  collision := false

/-- The RNG state after the primary yaw draw. -/
def resetG2 (o : Oracle) (S : ℕ) : ℕ := (o.uniform (-o.pi) o.pi (resetG1 o S)).2

/-- The opponent corner mirroring the drawn start position. -/
def resetOpponentPos (o : Oracle) (S : ℕ) : Vec3 :=
  if (resetStartPos o S).x < 0 then
    ⟨arenaHalfSize - 0.5, arenaHalfSize - 0.5, 0.1⟩
  else
    ⟨-arenaHalfSize + 0.5, -arenaHalfSize + 0.5, 0.1⟩

/-- The RNG state after the opponent yaw draw. -/
def resetG3 (o : Oracle) (S : ℕ) : ℕ := (o.uniform (-o.pi) o.pi (resetG2 o S)).2

/-- The environment state a seeded reset has rebuilt just before it
takes the initial observation. -/
def resetBase (o : Oracle) (s : EnvState) (S : ℕ) : EnvState :=
  { s with
    steps := 0
    terminated := false
    truncated := false
    arenaMinePositions := defaultArenaMines
    arenaMineObjects := 3
    vehicle := some (resetVehicle o S)
    opponent_position := some (resetOpponentPos o S)
    envMinePositions := (drawMines o (pyInt (s.difficulty * 8)).toNat (resetG3 o S)).1
    rng := (drawMines o (pyInt (s.difficulty * 8)).toNat (resetG3 o S)).2 }

/-- A stale 40-frame-shaped observation frame left over from earlier
activity (24 entries: the laser scan of `testOracle` is empty). -/
def zeroFrame : List ℚ := List.replicate 24 0

/-- An environment that has already stepped: its observation history
exists (four stale frames carried over from before the reset). -/
def staleHistoryState : EnvState :=
  { initState 0.1 5 with
    obsHistory := some [zeroFrame, zeroFrame, zeroFrame, zeroFrame] }

/-- C1: with the `boundary_crossed` latch false, the `distance_reward`
and `rotation_reward` components returned by `_compute_reward` are
exactly 0, regardless of the relative pose of the two vehicles (and of
every other input). -/
theorem distance_rotation_gated_until_crossing (o : Oracle) (s : EnvState)
    (now : ℚ) (a : ℚ × ℚ) (info : RewardInfo)
    (h : s.boundary_crossed = false) :
    (computeReward o s now a info).2.1.distance_reward = 0 ∧
    (computeReward o s now a info).2.1.rotation_reward = 0 := by
  unfold computeReward computeRewardE
  rcases hv : s.vehicle with _ | veh
  · simp [zeroComponents]
  · rcases hs : o.laserScan veh with e | ds <;>
      rcases ho : s.opponent_position with _ | opp <;>
        simp [hs, ho, h, Except.bind, zeroComponents]

/-- Witness for C1 at a concrete input: the fresh environment extended
with a vehicle and an opponent, latch still down. -/
theorem distance_rotation_gated_witness :
    ungatedState.boundary_crossed = false ∧
    ((computeReward testOracle ungatedState 0 (1, 1)
      (RewardInfo.ofBool true)).2.1.distance_reward = 0 ∧
     (computeReward testOracle ungatedState 0 (1, 1)
      (RewardInfo.ofBool true)).2.1.rotation_reward = 0) :=
  ⟨rfl, distance_rotation_gated_until_crossing testOracle ungatedState 0 (1, 1)
    (RewardInfo.ofBool true) rfl⟩

/-- If some mine of the list is within contact distance (as the source
computes it), the mine loop yields exactly -15 whatever has been
accumulated from the mines scanned before it. -/
lemma minePenaltyLoop_contact (o : Oracle) (px py : ℚ) :
    ∀ (mines : List (ℚ × ℚ)),
    (∃ m ∈ mines, o.sqrt ((px - m.1) * (px - m.1) + (py - m.2) * (py - m.2)) <
      0.075 + 0.15) →
    ∀ acc : ℚ, minePenaltyLoop o px py mines acc = -15
  | [], h, _ => by
    obtain ⟨m, hm, _⟩ := h
    cases hm
  | (mx, my) :: rest, h, acc => by
    obtain ⟨m, hm, hlt⟩ := h
    rcases List.mem_cons.mp hm with rfl | hmem
    · simp only [minePenaltyLoop]
      rw [if_pos hlt]
    · simp only [minePenaltyLoop]
      split_ifs
      · rfl
      all_goals exact minePenaltyLoop_contact o px py rest ⟨m, hmem, hlt⟩ _

/-- -15 is a floor of the mine loop: no mine configuration can drive
the accumulated `mine_penalty` below the contact constant. -/
lemma minePenaltyLoop_lower (o : Oracle) (px py : ℚ) :
    ∀ (mines : List (ℚ × ℚ)) (acc : ℚ), -15 ≤ acc →
    -15 ≤ minePenaltyLoop o px py mines acc
  | [], acc, hacc => hacc
  | (mx, my) :: rest, acc, hacc => by
    simp only [minePenaltyLoop]
    split_ifs with h1 h2 h3
    · exact le_refl _
    · refine minePenaltyLoop_lower o px py rest _ (le_min hacc ?_)
      have hge : (0.075 : ℚ) + 0.15 ≤
          o.sqrt ((px - mx) * (px - mx) + (py - my) * (py - my)) := not_lt.mp h1
      have hdiv : (0 : ℚ) ≤
          (o.sqrt ((px - mx) * (px - mx) + (py - my) * (py - my)) - 0.075) / 0.3 :=
        div_nonneg (by linarith) (by norm_num)
      linarith
    · refine minePenaltyLoop_lower o px py rest _ ?_
      have hdiv : (0 : ℚ) ≤
          (o.sqrt ((px - mx) * (px - mx) + (py - my) * (py - my)) - 0.3) / 0.4 :=
        div_nonneg (by linarith [h3.2]) (by norm_num)
      linarith
    · exact minePenaltyLoop_lower o px py rest _ hacc

/-- C3: a vehicle within the contact radius (`mine_radius 0.075 +
half vehicle width 0.15`) of some arena mine receives the maximal
`mine_penalty` of -15 from `_compute_reward` (the -15 floor of the mine
loop is included), and `_is_terminated()` is true for that state. -/
theorem mine_contact_penalizes_and_terminates (o : Oracle) (s : EnvState)
    (now : ℚ) (a : ℚ × ℚ) (info : RewardInfo) (veh : VehicleState)
    (hveh : s.vehicle = some veh)
    (hscan : ∃ ds, o.laserScan veh = Except.ok ds)
    (hinv : s.arenaMineObjects = s.arenaMinePositions.length)
    (hcontact : ∃ m ∈ s.arenaMinePositions,
      o.sqrt ((veh.pos.x - m.1) * (veh.pos.x - m.1) +
        (veh.pos.y - m.2) * (veh.pos.y - m.2)) < 0.075 + 0.15) :
    (computeReward o s now a info).2.1.mine_penalty = -15 ∧
    isTerminated o s now = some true ∧
    (∀ (mines : List (ℚ × ℚ)) (acc : ℚ), -15 ≤ acc →
      -15 ≤ minePenaltyLoop o veh.pos.x veh.pos.y mines acc) := by
  obtain ⟨ds, hds⟩ := hscan
  have hne : s.arenaMinePositions ≠ [] := by
    obtain ⟨m, hm, _⟩ := hcontact
    intro hnil
    rw [hnil] at hm
    cases hm
  refine ⟨?_, ?_, minePenaltyLoop_lower o veh.pos.x veh.pos.y⟩
  · unfold computeReward computeRewardE
    rcases ho : s.opponent_position with _ | opp <;>
      simp [hveh, hds, ho, hne, minePenaltyLoop_contact o veh.pos.x veh.pos.y
        s.arenaMinePositions hcontact]
  · unfold isTerminated isTerminatedCore
    rw [hveh]
    simp only [Option.map_some]
    have hany : s.arenaMinePositions.any (fun m =>
        let dx := veh.pos.x - m.1
        let dy := veh.pos.y - m.2
        o.sqrt (dx * dx + dy * dy) < 0.075 + 0.15) = true := by
      obtain ⟨m, hm, hlt⟩ := hcontact
      exact List.any_eq_true.mpr ⟨m, hm, by simpa using hlt⟩
    have hobj : s.arenaMineObjects ≠ 0 := by
      rw [hinv]
      exact fun h0 => hne (List.length_eq_zero.mp h0)
    by_cases hc : veh.collision <;> simp [hc, hany, hobj]

/-- Witness for C3 at a concrete input: the vehicle sitting on the
central mine of the canonical lattice. -/
theorem mine_contact_witness :
    (computeReward testOracle mineState 0 (0, 0)
      (RewardInfo.ofBool false)).2.1.mine_penalty = -15 ∧
    isTerminated testOracle mineState 0 = some true ∧
    -15 ≤ minePenaltyLoop testOracle mineVeh.pos.x mineVeh.pos.y
      defaultArenaMines 0 :=
  have h := mine_contact_penalizes_and_terminates testOracle mineState 0 (0, 0)
    (RewardInfo.ofBool false) mineVeh rfl ⟨[], rfl⟩ rfl
    ⟨(0, 0), by simp [mineState, initState, defaultArenaMines],
      by norm_num [testOracle, mineVeh]⟩
  ⟨h.1, h.2.1, h.2.2 defaultArenaMines 0 (by norm_num)⟩

/-- `np.clip` into a symmetric interval stays in it. -/
lemma abs_clip_le (x a : ℚ) (ha : 0 ≤ a) : |clip x (-a) a| ≤ a := by
  rw [abs_le]
  constructor
  · exact le_min (le_max_right x (-a)) (by linarith)
  · exact min_le_right _ a

/-- C8: for every action (clamped internally, so for arbitrary inputs),
`apply_action` never commands a body linear speed above `max_velocity`
nor an angular speed above `max_angular_velocity`; under the exact
trigonometric identity the world-frame velocity magnitude obeys the
same bound. -/
theorem apply_action_speed_bounded (o : Oracle) (v : VehicleParams) (yaw : ℚ)
    (action : ℚ × ℚ) (hv : 0 ≤ v.max_velocity)
    (ha : 0 ≤ v.max_angular_velocity) :
    |(applyAction o v yaw action).linear_vel| ≤ v.max_velocity ∧
    |(applyAction o v yaw action).wz| ≤ v.max_angular_velocity ∧
    (o.cos yaw * o.cos yaw + o.sin yaw * o.sin yaw = 1 →
      (applyAction o v yaw action).vx * (applyAction o v yaw action).vx +
        (applyAction o v yaw action).vy * (applyAction o v yaw action).vy ≤
        v.max_velocity * v.max_velocity) := by
  have h1 : |clip action.1 (-1) 1| ≤ 1 := abs_clip_le action.1 1 one_pos.le
  have h2 : |clip action.2 (-1) 1| ≤ 1 := abs_clip_le action.2 1 one_pos.le
  have hl : |clip action.1 (-1) 1 * v.max_velocity| ≤ v.max_velocity := by
    rw [abs_mul, abs_of_nonneg hv]
    calc |clip action.1 (-1) 1| * v.max_velocity ≤ 1 * v.max_velocity :=
          mul_le_mul_of_nonneg_right h1 hv
      _ = v.max_velocity := one_mul _
  have hr : |clip action.2 (-1) 1 * v.max_velocity| ≤ v.max_velocity := by
    rw [abs_mul, abs_of_nonneg hv]
    calc |clip action.2 (-1) 1| * v.max_velocity ≤ 1 * v.max_velocity :=
          mul_le_mul_of_nonneg_right h2 hv
      _ = v.max_velocity := one_mul _
  have hlin : |(applyAction o v yaw action).linear_vel| ≤ v.max_velocity := by
    show |(clip action.1 (-1) 1 * v.max_velocity +
      clip action.2 (-1) 1 * v.max_velocity) / 2| ≤ v.max_velocity
    rw [abs_div]
    have habs := abs_add (clip action.1 (-1) 1 * v.max_velocity)
      (clip action.2 (-1) 1 * v.max_velocity)
    rw [show |(2 : ℚ)| = 2 by norm_num]
    linarith
  refine ⟨hlin, ?_, ?_⟩
  · exact abs_clip_le _ _ ha
  · intro htrig
    have hsq : (applyAction o v yaw action).linear_vel *
        (applyAction o v yaw action).linear_vel ≤
        v.max_velocity * v.max_velocity := by
      have := abs_le.mp hlin
      nlinarith [this.1, this.2]
    calc (applyAction o v yaw action).vx * (applyAction o v yaw action).vx +
          (applyAction o v yaw action).vy * (applyAction o v yaw action).vy
        = (applyAction o v yaw action).linear_vel *
            (applyAction o v yaw action).linear_vel *
            (o.cos yaw * o.cos yaw + o.sin yaw * o.sin yaw) := by
          show (applyAction o v yaw action).linear_vel * o.cos yaw *
              ((applyAction o v yaw action).linear_vel * o.cos yaw) +
            (applyAction o v yaw action).linear_vel * o.sin yaw *
              ((applyAction o v yaw action).linear_vel * o.sin yaw) = _
          ring
      _ = (applyAction o v yaw action).linear_vel *
            (applyAction o v yaw action).linear_vel := by rw [htrig, mul_one]
      _ ≤ v.max_velocity * v.max_velocity := hsq

/-- Witness for C8 at a concrete input: the source's vehicle
(`max_velocity = 2`, track width from size `(0.25, 0.2, 0.2)`) with a
stand-in rational angular cap, at an out-of-range action. -/
theorem apply_action_speed_bounded_witness :
    |(applyAction testOracle ⟨2, 4.71, (0.25, 0.2, 0.2)⟩ 0 (3, -7)).linear_vel| ≤ 2 ∧
    |(applyAction testOracle ⟨2, 4.71, (0.25, 0.2, 0.2)⟩ 0 (3, -7)).wz| ≤ 4.71 ∧
    (applyAction testOracle ⟨2, 4.71, (0.25, 0.2, 0.2)⟩ 0 (3, -7)).vx *
        (applyAction testOracle ⟨2, 4.71, (0.25, 0.2, 0.2)⟩ 0 (3, -7)).vx +
      (applyAction testOracle ⟨2, 4.71, (0.25, 0.2, 0.2)⟩ 0 (3, -7)).vy *
        (applyAction testOracle ⟨2, 4.71, (0.25, 0.2, 0.2)⟩ 0 (3, -7)).vy ≤ 2 * 2 :=
  have h := apply_action_speed_bounded testOracle ⟨2, 4.71, (0.25, 0.2, 0.2)⟩ 0
    (3, -7) (by norm_num) (by norm_num)
  ⟨h.1, h.2.1, h.2.2 (by norm_num [testOracle])⟩

/-- C9: whenever observation construction fails internally — the
vehicle is missing, or the frame builder raises — `_get_observation`
returns the zero vector of the full 160-float observation shape
instead of propagating the failure. -/
theorem observation_degrades_to_zero_vector (o : Oracle) (s : EnvState) (now : ℚ)
    (h : s.vehicle = none ∨ ∃ e, getObservationE o s now = Except.error e) :
    (getObservation o s now).1 = List.replicate 160 0 ∧
    (getObservation o s now).1.length = 160 := by
  have hz : (getObservation o s now).1 = List.replicate 160 0 := by
    rcases h with hv | ⟨e, he⟩
    · simp [getObservation, getObservationE, hv]
    · simp [getObservation, he]
  refine ⟨hz, ?_⟩
  rw [hz]
  exact List.length_replicate 160 0

/-- Witness for C9 at a concrete input: the freshly constructed
environment, whose vehicle has not been spawned yet. -/
theorem observation_degrades_witness :
    (getObservation testOracle (initState 0.1 5) 0).1 = List.replicate 160 0 ∧
    (getObservation testOracle (initState 0.1 5) 0).1.length = 160 :=
  observation_degrades_to_zero_vector testOracle (initState 0.1 5) 0 (Or.inl rfl)

/-- `_check_laser_hit` only ever touches the two laser latches. -/
lemma checkLaserHit_state (o : Oracle) (s : EnvState) (veh : VehicleState)
    (now : ℚ) :
    (checkLaserHit o s veh now).2 = s ∨
    (checkLaserHit o s veh now).2 =
      { s with laser_hit := false, continuous_hit_start := none } ∨
    (checkLaserHit o s veh now).2 =
      { s with laser_hit := true, continuous_hit_start := some now } := by
  unfold checkLaserHit
  by_cases hb : s.boundary_crossed <;>
    rcases ho : s.opponent_position with _ | opp <;>
      by_cases hray : o.rayHitsOpponent veh <;>
        by_cases hl : s.laser_hit <;>
          simp [hb, ho, hray, hl]

/-- `_get_observation` only ever touches the observation history. -/
lemma getObservation_state (o : Oracle) (s : EnvState) (now : ℚ) :
    (getObservation o s now).2 = s ∨
    ∃ h, (getObservation o s now).2 = { s with obsHistory := some h } := by
  unfold getObservation
  rcases he : getObservationE o s now with e | r
  · exact Or.inl rfl
  · revert he
    unfold getObservationE
    rcases hv : s.vehicle with _ | veh
    · intro he
      obtain rfl : (List.replicate 160 (0 : ℚ), s) = r := by
        simpa using he
      exact Or.inl rfl
    · rcases hf : getFrameE o s veh now with e | f
      · intro he
        dsimp only at he
        rw [hf] at he
        cases he
      · intro he
        dsimp only at he
        rw [hf] at he
        obtain rfl := (Except.ok.injEq _ _).mp he
        exact Or.inr ⟨_, rfl⟩

/-- `_compute_reward` only ever touches `visited_positions` and
`previous_action`. -/
lemma computeReward_state (o : Oracle) (s : EnvState) (now : ℚ) (a : ℚ × ℚ)
    (info : RewardInfo) :
    (computeReward o s now a info).2.2 = s ∨
    ∃ v, (computeReward o s now a info).2.2 =
      { s with visited := some v, previous_action := some a } := by
  unfold computeReward computeRewardE
  rcases hv : s.vehicle with _ | veh
  · simp
  · rcases hs : o.laserScan veh with e | ds
    · simp [hs]
    · simp only [hs]
      exact Or.inr ⟨_, rfl⟩

lemma checkLaserHit_boundary (o : Oracle) (s : EnvState) (veh : VehicleState)
    (now : ℚ) :
    (checkLaserHit o s veh now).2.boundary_crossed = s.boundary_crossed := by
  rcases checkLaserHit_state o s veh now with h | h | h <;> rw [h]

lemma getObservation_boundary (o : Oracle) (s : EnvState) (now : ℚ) :
    (getObservation o s now).2.boundary_crossed = s.boundary_crossed := by
  rcases getObservation_state o s now with h | ⟨hh, h⟩ <;> rw [h]

lemma computeReward_boundary (o : Oracle) (s : EnvState) (now : ℚ) (a : ℚ × ℚ)
    (info : RewardInfo) :
    (computeReward o s now a info).2.2.boundary_crossed = s.boundary_crossed := by
  rcases computeReward_state o s now a info with h | ⟨v, h⟩ <;> rw [h]

/-- The boundary latch after `_check_boundary_crossed` is the old latch
OR'ed with "the y-coordinate is strictly positive". -/
lemma checkBoundaryCrossed_eq (s : EnvState) (veh : VehicleState) :
    (checkBoundaryCrossed s veh).boundary_crossed =
      (s.boundary_crossed || decide (veh.pos.y > 0)) := by
  unfold checkBoundaryCrossed
  by_cases h1 : veh.pos.y > 0 <;> by_cases h2 : s.boundary_crossed <;>
    simp [h1, h2]

/-- The boundary latch a completed `step` leaves behind: the incoming
latch OR'ed with the post-physics "y strictly positive" test. -/
lemma stepFn_boundary (o : Oracle) (s : EnvState) (a : ℚ × ℚ) (now : ℚ)
    (veh : VehicleState) (hv : s.vehicle = some veh) (r : StepResult)
    (hr : stepFn o s a now = some r) :
    r.state.boundary_crossed =
      (s.boundary_crossed ||
        decide ((o.physics veh (a.1 * 3, a.2 * 3)).pos.y > 0)) := by
  unfold stepFn at hr
  rw [hv] at hr
  dsimp only at hr
  obtain rfl := (Option.some.injEq _ _).mp hr
  dsimp only
  rw [computeReward_boundary, getObservation_boundary, checkLaserHit_boundary,
    checkBoundaryCrossed_eq]

/-- C5: within an episode the `boundary_crossed` latch is one-way:
every completed `step` from a state with the latch set leaves it set. -/
theorem boundary_latch_monotone (o : Oracle) (s : EnvState) (a : ℚ × ℚ)
    (now : ℚ) (h : s.boundary_crossed = true) :
    ∀ r : StepResult, stepFn o s a now = some r →
      r.state.boundary_crossed = true := by
  intro r hr
  rcases hv : s.vehicle with _ | veh
  · unfold stepFn at hr
    rw [hv] at hr
    cases hr
  · rw [stepFn_boundary o s a now veh hv r hr, h, Bool.true_or]

/-- Witness for C5 at a concrete input: one step of the latched
mid-episode state. -/
theorem boundary_latch_monotone_witness :
    hitState.boundary_crossed = true ∧
    (stepFn testOracle hitState (0, 0) 1).map
      (fun r => r.state.boundary_crossed) = some true := by
  refine ⟨rfl, ?_⟩
  rcases hsr : stepFn testOracle hitState (0, 0) 1 with _ | r
  · exact absurd hsr (by simp [stepFn, hitState, initState, midVeh])
  · exact congrArg some
      (boundary_latch_monotone testOracle hitState (0, 0) 1 rfl r hsr)

/-- C10: `step` latches `boundary_crossed` whenever the post-physics
y-coordinate is strictly positive — whatever the latch held before —
and the upper-right corner the random spawn can select already has a
strictly positive y-coordinate, so the gate can open on the first step
without the vehicle ever moving across the `y = 0` line. -/
theorem step_latches_on_positive_y (o : Oracle) (s : EnvState) (a : ℚ × ℚ)
    (now : ℚ) (veh : VehicleState) (hv : s.vehicle = some veh)
    (hy : (o.physics veh (a.1 * 3, a.2 * 3)).pos.y > 0) :
    (∀ r : StepResult, stepFn o s a now = some r →
      r.state.boundary_crossed = true) ∧
    (∀ g : ℕ, ¬ (o.rand g).1 > 0.5 → (getRandomStartPosition o g).1.y > 0) := by
  constructor
  · intro r hr
    rw [stepFn_boundary o s a now veh hv r hr]
    simp [hy]
  · intro g hg
    unfold getRandomStartPosition
    dsimp only
    rw [if_neg hg]
    norm_num [arenaHalfSize]

/-- Witness for C10 at a concrete input: the very first step of an
episode whose spawn placed the vehicle at the upper-right corner
(`lowRandOracle` draws 0.3 ≤ 0.5, selecting that corner). -/
theorem step_latches_on_positive_y_witness :
    upperStartState.boundary_crossed = false ∧
    (stepFn lowRandOracle upperStartState (0, 0) 0).map
      (fun r => r.state.boundary_crossed) = some true ∧
    (getRandomStartPosition lowRandOracle 0).1.y > 0 := by
  have h := step_latches_on_positive_y lowRandOracle upperStartState (0, 0) 0
    upperVeh rfl (by norm_num [lowRandOracle, testOracle, upperVeh])
  refine ⟨rfl, ?_, h.2 0 (by norm_num [lowRandOracle, testOracle])⟩
  rcases hsr : stepFn lowRandOracle upperStartState (0, 0) 0 with _ | r
  · exact absurd hsr
      (by simp [stepFn, upperStartState, initState, upperVeh])
  · exact congrArg some (h.1 r hsr)

lemma getObservation_fields (o : Oracle) (s : EnvState) (now : ℚ) :
    (getObservation o s now).2.steps = s.steps ∧
    (getObservation o s now).2.terminated = s.terminated ∧
    (getObservation o s now).2.truncated = s.truncated ∧
    (getObservation o s now).2.laser_hit = s.laser_hit ∧
    (getObservation o s now).2.continuous_hit_start = s.continuous_hit_start := by
  rcases getObservation_state o s now with h | ⟨hh, h⟩ <;> rw [h] <;>
    exact ⟨rfl, rfl, rfl, rfl, rfl⟩

/-- C6 (amended): `reset` zeroes the step counter and the
terminated/truncated flags, but it does NOT zero the latch state: the
`boundary_crossed`, `laser_hit` and `continuous_hit_start` latches all
retain their pre-reset values (they are only initialised to false/none
at construction). -/
theorem reset_zeroes_steps_not_latches (o : Oracle) (s : EnvState)
    (seed : Option ℕ) (now : ℚ) :
    (resetFn o s seed now).2.steps = 0 ∧
    (resetFn o s seed now).2.terminated = false ∧
    (resetFn o s seed now).2.truncated = false ∧
    (resetFn o s seed now).2.boundary_crossed = s.boundary_crossed ∧
    (resetFn o s seed now).2.laser_hit = s.laser_hit ∧
    (resetFn o s seed now).2.continuous_hit_start = s.continuous_hit_start := by
  unfold resetFn
  rcases seed with _ | sd <;>
    dsimp only <;>
    refine ⟨?_, ?_, ?_, ?_, ?_, ?_⟩ <;>
    first
      | exact (getObservation_fields _ _ _).1
      | exact (getObservation_fields _ _ _).2.1
      | exact (getObservation_fields _ _ _).2.2.1
      | exact getObservation_boundary _ _ _
      | exact (getObservation_fields _ _ _).2.2.2.1
      | exact (getObservation_fields _ _ _).2.2.2.2

/-- Counterexample for C6 as stated: resetting an episode whose
`boundary_crossed` latch is set zeroes the step counter but leaves the
latch TRUE, so the latch state is not zeroed by reset. -/
theorem reset_latch_not_zeroed_counterexample :
    (resetFn testOracle crossedState (some 42) 0).2.steps = 0 ∧
    (resetFn testOracle crossedState (some 42) 0).2.boundary_crossed = true := by
  constructor
  · unfold resetFn
    dsimp only
    exact (getObservation_fields _ _ _).1
  · unfold resetFn
    dsimp only
    rw [getObservation_boundary]
    rfl

/-- C4 (amended): when the post-append FIFO holds at least
`promotion_window` entries and the win rate over the last
`promotion_window` entries is at least 0.75, the promotion branch fires
before any demotion is considered (the stage never decreases): below
stage 6 the stage advances by exactly one and the history is cleared,
but AT stage 6 the promotion leaves both the stage and the history
unchanged — the history is not cleared there. -/
theorem promotion_advances_and_clears_below_max (c : Curriculum) (w : Bool)
    (hlen : (pushWin c.win_history w).length ≥ promotionWindow)
    (hrate : winRate (lastN promotionWindow (pushWin c.win_history w)) ≥
      promotionThreshold) :
    (c.current_stage < maxStage →
      recordOutcome c w = ⟨c.current_stage + 1, []⟩) ∧
    (¬ c.current_stage < maxStage →
      recordOutcome c w = ⟨c.current_stage, pushWin c.win_history w⟩) ∧
    c.current_stage ≤ (recordOutcome c w).current_stage := by
  have hco : recordOutcome c w = promote ⟨c.current_stage, pushWin c.win_history w⟩ := by
    unfold recordOutcome checkForPromotionOrDemotion
    dsimp only
    rw [if_neg, if_pos ⟨hlen, hrate⟩]
    push_neg
    calc min promotionWindow demotionWindow ≤ promotionWindow := min_le_left _ _
      _ ≤ (pushWin c.win_history w).length := hlen
  rw [hco]
  unfold promote
  by_cases hst : c.current_stage < maxStage
  · rw [if_pos hst]
    exact ⟨fun _ => rfl, fun h => absurd hst h, Nat.le_succ _⟩
  · rw [if_neg hst]
    exact ⟨fun h => absurd h hst, fun _ => rfl, le_refl _⟩

/-- Counterexample for C4 as stated: at stage 6 a tenth consecutive win
makes the FIFO hold `promotion_window` entries at win rate 1.0 ≥ 0.75,
yet `record_outcome` neither advances the stage (fine — clamped) nor
clears the history: the FIFO still holds all 10 entries afterwards,
contradicting "the history is cleared". -/
theorem promotion_at_max_counterexample :
    (pushWin stage6Curriculum.win_history true).length ≥ promotionWindow ∧
    winRate (lastN promotionWindow (pushWin stage6Curriculum.win_history true)) ≥
      promotionThreshold ∧
    (recordOutcome stage6Curriculum true).current_stage = 6 ∧
    (recordOutcome stage6Curriculum true).win_history ≠ [] := by
  refine ⟨?_, ?_, ?_, ?_⟩ <;>
    norm_num [recordOutcome, checkForPromotionOrDemotion, promote, demote,
      pushWin, lastN, winRate, promotionWindow, demotionWindow,
      promotionThreshold, demotionThreshold, maxStage, stage6Curriculum,
      List.countP_cons]
  exact List.cons_ne_nil _ _

/-- Witness for the amended C4 at a concrete input: a tenth consecutive
win at stage 2 advances to stage 3 and clears the history. -/
theorem promotion_advances_witness :
    recordOutcome ⟨2, [true, true, true, true, true, true, true, true, true]⟩
      true = ⟨3, []⟩ ∧
    (⟨2, [true, true, true, true, true, true, true, true, true]⟩ :
      Curriculum).current_stage ≤
      (recordOutcome ⟨2, [true, true, true, true, true, true, true, true, true]⟩
        true).current_stage :=
  have h := promotion_advances_and_clears_below_max
    ⟨2, [true, true, true, true, true, true, true, true, true]⟩ true
    (by norm_num [pushWin, promotionWindow, demotionWindow])
    (by norm_num [pushWin, lastN, winRate, promotionWindow, demotionWindow,
      promotionThreshold, List.countP_cons])
  ⟨h.1 (by norm_num [maxStage]), h.2.2⟩

/-- C2 (code bug): the failing input evaluated.  `hitState` has held
the laser on the opponent since time 0; at `now = 3` the sustained-hit
duration is 3 s ≥ the 2 s victory threshold, the combat ray still hits
(`hitOracle`), and `step` does terminate the episode — but the reward
breakdown it returns carries `goal_reward = 0`: `step` hands the
boolean hit flag to `_compute_reward`, whose `isinstance(info, dict)`
test therefore reads `laser_hit = False`, so the 50-point terminal
bonus (and the laser reward) is never paid. -/
theorem sustained_hit_goal_reward_not_paid :
    (RewardInfo.ofBool true).laserHit = false ∧
    hitState.continuous_hit_start = some 0 ∧
    (stepFn hitOracle hitState (0, 0) 3).map
      (fun r => (r.components.goal_reward, r.components.laser_reward,
        r.terminated)) = some (0, 0, true) := by
  refine ⟨rfl, rfl, ?_⟩
  norm_num [stepFn, hitState, hitOracle, testOracle, midVeh, initState,
    checkBoundaryCrossed, checkLaserHit, getObservation, getObservationE,
    getFrameE, pushBounded, computeReward, computeRewardE, isTerminatedCore,
    isTruncated, npMin, minePenaltyLoop, RewardInfo.laserHit, nearestMineScan,
    normalizeAngle, whileGtPi, whileLtNegPi, pyInt, defaultArenaMines,
    arenaHalfSize, clip, zeroComponents, RewardComponents.sumAll]

lemma getObservation_difficulty (o : Oracle) (s : EnvState) (now : ℚ) :
    (getObservation o s now).2.difficulty = s.difficulty := by
  rcases getObservation_state o s now with h | ⟨hh, h⟩ <;> rw [h]

/-- A seeded reset is the initial observation of the rebuilt state,
with `previous_action` cleared afterwards. -/
lemma resetFn_eq (o : Oracle) (s : EnvState) (S : ℕ) (now : ℚ) :
    resetFn o s (some S) now =
      ((getObservation o (resetBase o s S) now).1,
       { (getObservation o (resetBase o s S) now).2 with previous_action := none }) := by
  simp only [resetFn, resetBase, resetVehicle, resetStartPos, resetG1, resetG2,
    resetOpponentPos, resetG3]

/-- One observation frame is insensitive to the wall clock and to all
state fields other than the five it reads, once the hit timestamp is
unset. -/
lemma getFrameE_congr (o : Oracle) (s t : EnvState) (veh : VehicleState)
    (n1 n2 : ℚ)
    (hopp : t.opponent_position = s.opponent_position)
    (hbc : t.boundary_crossed = s.boundary_crossed)
    (hmines : t.envMinePositions = s.envMinePositions)
    (hlh : t.laser_hit = s.laser_hit)
    (hchs : s.continuous_hit_start = none)
    (hchs2 : t.continuous_hit_start = none) :
    getFrameE o t veh n2 = getFrameE o s veh n1 := by
  unfold getFrameE
  rw [hopp, hbc, hmines, hlh, hchs, hchs2]

/-- The observation `_get_observation` returns, and the history it
stores, as a function of the frame outcome. -/
lemma getObservation_obs (o : Oracle) (s : EnvState) (now : ℚ)
    (veh : VehicleState) (hv : s.vehicle = some veh) :
    (getObservation o s now).1 =
      (match getFrameE o s veh now with
       | .error _ => List.replicate 160 0
       | .ok f => (pushBounded ((s.obsHistory).getD (List.replicate 4 f)) f).flatten) ∧
    (getObservation o s now).2.obsHistory =
      (match getFrameE o s veh now with
       | .error _ => s.obsHistory
       | .ok f => some (pushBounded ((s.obsHistory).getD (List.replicate 4 f)) f)) := by
  unfold getObservation getObservationE
  rw [hv]
  rcases hf : getFrameE o s veh now with e | f <;>
    rcases hh : s.obsHistory with _ | h <;>
      simp [hf, hh]

lemma pushBounded_replicate (f : List ℚ) :
    pushBounded (List.replicate 4 f) f = List.replicate 4 f := rfl

/-- C7 (amended): on an environment that has taken no step since
construction (the 4-frame observation history does not exist yet and
the hit timestamp is unset), `reset(seed=S)` twice in a row returns
identical initial observations, whatever the wall-clock times of the
two calls. -/
theorem reset_twice_identical_from_fresh (o : Oracle) (s : EnvState) (S : ℕ)
    (now1 now2 : ℚ) (hh : s.obsHistory = none)
    (hc : s.continuous_hit_start = none) :
    (resetFn o (resetFn o s (some S) now1).2 (some S) now2).1 =
      (resetFn o s (some S) now1).1 := by
  rw [resetFn_eq o s S now1]
  rw [resetFn_eq]
  dsimp only
  set B := resetBase o s S with hB
  set T : EnvState :=
    { (getObservation o B now1).2 with previous_action := none } with hT
  have hBv : B.vehicle = some (resetVehicle o S) := rfl
  have hTv : (resetBase o T S).vehicle = some (resetVehicle o S) := rfl
  have hBh : B.obsHistory = none := hh
  have hBc : B.continuous_hit_start = none := hc
  obtain ⟨hobs1, hhist1⟩ := getObservation_obs o B now1 _ hBv
  obtain ⟨hobs2, _⟩ := getObservation_obs o (resetBase o T S) now2 _ hTv
  have hbc2 : (resetBase o T S).boundary_crossed = B.boundary_crossed :=
    getObservation_boundary o B now1
  have hlh2 : (resetBase o T S).laser_hit = B.laser_hit :=
    (getObservation_fields o B now1).2.2.2.1
  have hchs2 : (resetBase o T S).continuous_hit_start = none := by
    have hpres : (getObservation o B now1).2.continuous_hit_start =
      B.continuous_hit_start := (getObservation_fields o B now1).2.2.2.2
    show (getObservation o B now1).2.continuous_hit_start = none
    rw [hpres]
    exact hBc
  have hmines2 : (resetBase o T S).envMinePositions = B.envMinePositions := by
    show (drawMines o (pyInt ((getObservation o B now1).2.difficulty * 8)).toNat
      (resetG3 o S)).1 = (drawMines o (pyInt (s.difficulty * 8)).toNat
      (resetG3 o S)).1
    rw [getObservation_difficulty]
    rfl
  have hF : getFrameE o (resetBase o T S) (resetVehicle o S) now2 =
      getFrameE o B (resetVehicle o S) now1 :=
    getFrameE_congr o B (resetBase o T S) (resetVehicle o S) now1 now2 rfl
      hbc2 hmines2 hlh2 hBc hchs2
  rw [hobs1, hobs2, hF]
  rcases hF1 : getFrameE o B (resetVehicle o S) now1 with e | f
  · rfl
  · dsimp only
    have hhist : (resetBase o T S).obsHistory =
        some (pushBounded (B.obsHistory.getD (List.replicate 4 f)) f) := by
      show (getObservation o B now1).2.obsHistory = _
      rw [hhist1, hF1]
    rw [hhist, hBh]
    dsimp only [Option.getD]
    rw [pushBounded_replicate, pushBounded_replicate]

/-- Witness for the amended C7 at a concrete input: a freshly
constructed environment, reset twice with seed 7 at different
wall-clock times. -/
theorem reset_twice_identical_witness :
    (resetFn testOracle (resetFn testOracle (initState 0.5 0) (some 7) 0).2
      (some 7) 1).1 = (resetFn testOracle (initState 0.5 0) (some 7) 0).1 :=
  reset_twice_identical_from_fresh testOracle (initState 0.5 0) 7 0 1 rfl rfl

/-- Counterexample for C7 as stated: an environment whose observation
history already exists returns DIFFERENT observations from two
back-to-back `reset(seed=7)` calls — the first returns three stale
frames plus the new frame, the second two stale frames plus two new
frames, because reset never clears the 4-frame history. -/
theorem reset_twice_differs_counterexample :
    (resetFn testOracle (resetFn testOracle staleHistoryState (some 7) 0).2
      (some 7) 0).1 ≠ (resetFn testOracle staleHistoryState (some 7) 0).1 := by
  norm_num [resetFn, getRandomStartPosition, drawMines, getObservation,
    getObservationE, getFrameE, pushBounded, nearestMineScan, normalizeAngle,
    whileGtPi, whileLtNegPi, pyInt, testOracle, staleHistoryState, initState,
    defaultArenaMines, arenaHalfSize, clip, npMin, zeroFrame, List.replicate]

end LaserSim
